import Mathlib

/-!
Verification of the invoice-reconciliation core of
paiml/GitHub-Copilot-Mastery-Capstone.

The reconciliation matcher (`InvoiceMatcher`), the tolerance rule engine
(`ToleranceRule`, `RuleEngine`) and the currency converter
(`CurrencyConverter`) are embedded shallowly below.  JavaScript `number`
values are modelled as exact rationals extended with `Infinity`,
`-Infinity` and `NaN` (`JsNum`), so that the zero-division and NaN
comparison behaviour of the source is preserved exactly.  Sources:
`src/docs/specifications/capstone.md` (matcher and rule engine code
blocks) and `src/business/currency/converter.ts`.
-/

/-- A JavaScript number: a finite rational, an infinity, or NaN. -/
inductive JsNum where
  | fin (q : ℚ)
  | inf
  | negInf
  | nan
deriving DecidableEq, Repr

namespace JsNum

/-- JavaScript subtraction `a - b` (IEEE-754 semantics on the modelled values). -/
def sub : JsNum → JsNum → JsNum
  | nan, _ => nan
  | _, nan => nan
  | fin a, fin b => fin (a - b)
  | inf, inf => nan
  | negInf, negInf => nan
  | inf, _ => inf
  | negInf, _ => negInf
  | fin _, inf => negInf
  | fin _, negInf => inf

/-- JavaScript addition `a + b`. -/
def add : JsNum → JsNum → JsNum
  | nan, _ => nan
  | _, nan => nan
  | fin a, fin b => fin (a + b)
  | inf, negInf => nan
  | negInf, inf => nan
  | inf, _ => inf
  | negInf, _ => negInf
  | fin _, inf => inf
  | fin _, negInf => negInf

/-- JavaScript multiplication `a * b`. -/
def mul : JsNum → JsNum → JsNum
  | nan, _ => nan
  | _, nan => nan
  | fin a, fin b => fin (a * b)
  | inf, inf => inf
  | inf, negInf => negInf
  | negInf, inf => negInf
  | negInf, negInf => inf
  | inf, fin b => if b = 0 then nan else if 0 < b then inf else negInf
  | negInf, fin b => if b = 0 then nan else if 0 < b then negInf else inf
  | fin a, inf => if a = 0 then nan else if 0 < a then inf else negInf
  | fin a, negInf => if a = 0 then nan else if 0 < a then negInf else inf

/-- JavaScript `Math.abs`. -/
def abs : JsNum → JsNum
  | nan => nan
  | inf => inf
  | negInf => inf
  | fin a => fin |a|

/-- JavaScript division `a / b`; `0/0 = NaN`, `x/0 = ±Infinity` for `x ≠ 0`
(the denominators produced by the source are positive zeros). -/
def div : JsNum → JsNum → JsNum
  | nan, _ => nan
  | _, nan => nan
  | fin a, fin b =>
      if b = 0 then (if a = 0 then nan else if 0 < a then inf else negInf)
      else fin (a / b)
  | fin _, inf => fin 0
  | fin _, negInf => fin 0
  | inf, fin b => if 0 ≤ b then inf else negInf
  | negInf, fin b => if 0 ≤ b then negInf else inf
  | inf, _ => nan
  | negInf, _ => nan

/-- JavaScript comparison `a <= b`: any comparison with NaN is false. -/
def le : JsNum → JsNum → Bool
  | nan, _ => false
  | _, nan => false
  | negInf, _ => true
  | _, negInf => false
  | _, inf => true
  | inf, _ => false
  | fin a, fin b => decide (a ≤ b)

/-- JavaScript comparison `a < b`: any comparison with NaN is false. -/
def lt : JsNum → JsNum → Bool
  | nan, _ => false
  | _, nan => false
  | _, negInf => false
  | negInf, _ => true
  | inf, _ => false
  | _, inf => true
  | fin a, fin b => decide (a < b)

/-- JavaScript comparison `a > b`. -/
def gt (a b : JsNum) : Bool := lt b a

/-- JavaScript comparison `a >= b`. -/
def ge (a b : JsNum) : Bool := le b a

end JsNum

/-! ## Rule engine (`src/docs/specifications/capstone.md`, rule_engine.ts block) -/

/-- A dynamic field value of a `ReconciliationContext` side: a numeric
property or an absent/undefined one (`context.invoice[field]`). -/
inductive JsField where
  | num (q : ℚ)
  | undef
deriving DecidableEq, Repr

/-- JavaScript coercion of a field read into arithmetic: a number stays
itself, `undefined` turns the arithmetic into NaN. -/
def JsField.toNum : JsField → JsNum
  | .num q => .fin q
  | .undef => .nan

/-- The `ReconciliationContext`: the invoice side and the purchase-order
side, each read dynamically by field name. -/
structure RuleCtx where
  invoice : String → JsField
  purchaseOrder : String → JsField

/-- Severity of a `RuleResult`. -/
inductive Severity where
  | info
  | warning
  | error
deriving DecidableEq, Repr

/-- `RuleResult` from the rule engine; `details` carries
`{expected, actual, tolerance}` on failure. -/
structure RuleResult where
  passed : Bool
  message : String
  severity : Severity
  details : Option (JsNum × JsNum × ℚ) := none
deriving DecidableEq, Repr

/-- `ToleranceRule(tolerance, field)`: tolerance in percent, field name. -/
structure ToleranceRule where
  tolerance : ℚ
  field : String

/-- `ToleranceRule.evaluate`: reads the field on both sides, computes
`diff = Math.abs(actual - expected) / expected`, passes iff
`diff <= tolerance / 100`; on failure severity is `warning` iff
`diff <= 0.05`, else `error`.  (The numeric interpolation inside the
message strings is abbreviated; no claim concerns the message text.) -/
def ToleranceRule.evaluate (r : ToleranceRule) (ctx : RuleCtx) : RuleResult :=
  let expected := (ctx.purchaseOrder r.field).toNum
  let actual := (ctx.invoice r.field).toNum
  let diff := JsNum.div (JsNum.abs (JsNum.sub actual expected)) expected
  if JsNum.le diff (.fin (r.tolerance / 100)) then
    { passed := true
      message := r.field ++ " within " ++ toString r.tolerance ++ "% tolerance"
      severity := .info }
  else
    { passed := false
      message := r.field ++ " exceeds " ++ toString r.tolerance ++ "% tolerance"
      severity := if JsNum.le diff (.fin (5 / 100)) then .warning else .error
      details := some (expected, actual, r.tolerance) }

/-- `ToleranceRule.explain`. -/
def ToleranceRule.explain (r : ToleranceRule) : String :=
  r.field ++ " must be within " ++ toString r.tolerance ++ "% of expected value"

/-- A registered `Rule<ReconciliationContext>`: its `evaluate` method and
its `explain` method. -/
structure Rule where
  eval : RuleCtx → RuleResult
  explain : String

/-- The `BusinessRuleViolationError` thrown by `RuleEngine.evaluate`:
`message` and the `{rule, result}` details. -/
structure Violation where
  message : String
  rule : String
  result : RuleResult
deriving DecidableEq, Repr

/-- `EvaluationResult` returned by `RuleEngine.evaluate`. -/
structure EvaluationResult where
  passed : Bool
  results : List RuleResult
  warnings : List RuleResult
deriving DecidableEq, Repr

/-- The loop body of `RuleEngine.evaluate`: walk the registered rules in
order accumulating results; on the first result with
`!result.passed && result.severity === "error"` throw the violation. -/
def RuleEngine.evalLoop (ctx : RuleCtx) : List Rule → List RuleResult →
    Except Violation (List RuleResult)
  | [], acc => .ok acc
  | r :: rs, acc =>
      let result := r.eval ctx
      if !result.passed && decide (result.severity = .error) then
        .error { message := "Rule violation: " ++ r.explain
                 rule := r.explain
                 result := result }
      else RuleEngine.evalLoop ctx rs (acc ++ [result])

/-- `RuleEngine.evaluate`: run all rules (fail-fast on error severity),
then assemble `passed`, `results` and `warnings`. -/
def RuleEngine.evaluate (rules : List Rule) (ctx : RuleCtx) :
    Except Violation EvaluationResult :=
  match RuleEngine.evalLoop ctx rules [] with
  | .error v => .error v
  | .ok results =>
      .ok { passed := results.all (·.passed)
            results := results
            warnings := results.filter (fun r => !r.passed && decide (r.severity = .warning)) }

/-! ## Invoice matcher (`src/docs/specifications/capstone.md`, matcher.ts block) -/

/-- The closed `CurrencyCode` enumeration
(`src/shared/types/invoice.ts`). -/
inductive Currency where
  | USD
  | EUR
  | GBP
  | AUD
  | CAD
deriving DecidableEq, Repr

/-- `Money { amount, currency }`. -/
structure Money where
  amount : ℚ
  currency : Currency
deriving DecidableEq, Repr

/-- A line item of an invoice or purchase order
(`InvoiceLineItem` / `PurchaseOrderLineItem`). -/
structure LineItem where
  id : String
  description : String
  quantity : ℚ
  unitPrice : Money
  total : Money
deriving DecidableEq, Repr

/-- The fields of `Invoice` read by the matcher. -/
structure Invoice where
  id : String
  lineItems : List LineItem
  total : Money
  currency : Currency
deriving DecidableEq, Repr

/-- The fields of `PurchaseOrder` read by the matcher. -/
structure PurchaseOrder where
  id : String
  lineItems : List LineItem
  total : Money
  currency : Currency
  status : String
deriving DecidableEq, Repr

/-- `MatchScore { confidence, matchedItems, totalItems }`; the confidence
is a JavaScript number (it is NaN when no line item matched). -/
structure MatchScore where
  confidence : JsNum
  matchedItems : ℕ
  totalItems : ℕ
deriving DecidableEq, Repr

/-- `MatchCandidate { purchaseOrder, score }`. -/
structure MatchCandidate where
  purchaseOrder : PurchaseOrder
  score : MatchScore
deriving DecidableEq, Repr

/-- `MatchResult { bestMatch, confidence, alternatives, reasons }`. -/
structure MatchResult where
  bestMatch : Option PurchaseOrder
  confidence : JsNum
  alternatives : List MatchCandidate
  reasons : List String
deriving DecidableEq, Repr

/-- One step of the Levenshtein recurrence of
`InvoiceMatcher.calculateLevenshtein` for a fixed character `x` of the
first string, given the distance function `dxs` of the remaining
characters: `min` of deletion, insertion, and substitution (cost 0 on
equal characters), exactly the `matrix[i][j]` recurrence of the source. -/
def levDistAux (x : Char) (dxs : List Char → ℕ) : List Char → ℕ
  | [] => dxs [] + 1
  | y :: ys =>
      min (dxs (y :: ys) + 1)
        (min (levDistAux x dxs ys + 1)
          (dxs ys + (if x = y then 0 else 1)))

/-- The Levenshtein edit distance computed by the dynamic-programming
matrix of `InvoiceMatcher.calculateLevenshtein` (`matrix[i][j]` is the
distance between the length-`i` and length-`j` prefixes; the border
rows are `matrix[i][0] = i`, `matrix[0][j] = j`). -/
def levDist : List Char → List Char → ℕ
  | [], ys => ys.length
  | x :: xs, ys => levDistAux x (levDist xs) ys

/-- `InvoiceMatcher.calculateLevenshtein(str1, str2)`: returns
`1 - distance / maxLen` as a JavaScript number — for two empty strings
this is `1 - 0/0 = NaN`. -/
def calculateLevenshtein (str1 str2 : List Char) : JsNum :=
  let distance := levDist str1 str2
  let maxLen := max str1.length str2.length
  JsNum.sub (.fin 1) (JsNum.div (.fin (distance : ℚ)) (.fin (maxLen : ℚ)))

/-- JavaScript `Math.round`: rounds half toward positive infinity. -/
def jsRound (q : ℚ) : ℤ := ⌊q + 1 / 2⌋

/-- Modelled from the spec: the private `InvoiceMatcher.convertPrice`
helper is absent from the repository (only its call site in
`matchesLineItem` appears).  Per spec section 4.3 and the
`CurrencyConverter.convert` source it returns the invoice unit price in
the PO currency: unchanged when the currencies are equal, otherwise
`amount * rate` rounded to 4 decimal places; the exchange rate is
supplied as an oracle. -/
def convertPrice (price : Money) (dst : Currency)
    (rate : Currency → Currency → ℚ) : ℚ :=
  if price.currency = dst then price.amount
  else (jsRound (price.amount * rate price.currency dst * 10000) : ℚ) / 10000

/-- `InvoiceMatcher.matchesLineItem`: description similarity at least
0.85, then relative quantity difference at most 0.02, then relative
price difference (after currency conversion) at most 0.02 — each
relative difference divides by the PO-side value with JavaScript
division semantics. -/
def InvoiceMatcher.matchesLineItem (invItem poItem : LineItem)
    (rate : Currency → Currency → ℚ) : Bool :=
  let descSimilarity := calculateLevenshtein
    (invItem.description.data.map Char.toLower) (poItem.description.data.map Char.toLower)
  if JsNum.lt descSimilarity (.fin (85 / 100)) then false
  else
    let qtyDiff := JsNum.div
      (JsNum.abs (JsNum.sub (.fin invItem.quantity) (.fin poItem.quantity)))
      (.fin poItem.quantity)
    if JsNum.gt qtyDiff (.fin (2 / 100)) then false
    else
      let convertedPrice := convertPrice invItem.unitPrice poItem.unitPrice.currency rate
      let priceDiff := JsNum.div
        (JsNum.abs (JsNum.sub (.fin convertedPrice) (.fin poItem.unitPrice.amount)))
        (.fin poItem.unitPrice.amount)
      if JsNum.gt priceDiff (.fin (2 / 100)) then false
      else true

/-- Modelled from the spec: `InvoiceMatcher.calculateLineItemScore` is
called in `calculateMatchScore` but its body is absent from the
repository.  Per spec section 4.3 the score is the weighted sum
`0.4 * descriptionSimilarity + 0.3 * (1 - quantityRelDiff)
+ 0.3 * (1 - priceRelDiff)`, unclamped. -/
def InvoiceMatcher.calculateLineItemScore (invItem poItem : LineItem)
    (rate : Currency → Currency → ℚ) : JsNum :=
  let descSim := calculateLevenshtein
    (invItem.description.data.map Char.toLower) (poItem.description.data.map Char.toLower)
  let qtyRelDiff := JsNum.div
    (JsNum.abs (JsNum.sub (.fin invItem.quantity) (.fin poItem.quantity)))
    (.fin poItem.quantity)
  let convertedPrice := convertPrice invItem.unitPrice poItem.unitPrice.currency rate
  let priceRelDiff := JsNum.div
    (JsNum.abs (JsNum.sub (.fin convertedPrice) (.fin poItem.unitPrice.amount)))
    (.fin poItem.unitPrice.amount)
  JsNum.add (JsNum.mul (.fin (4 / 10)) descSim)
    (JsNum.add (JsNum.mul (.fin (3 / 10)) (JsNum.sub (.fin 1) qtyRelDiff))
      (JsNum.mul (.fin (3 / 10)) (JsNum.sub (.fin 1) priceRelDiff)))

/-- The pairing step of `calculateMatchScore`:
`po.lineItems.find((item) => this.matchesLineItem(invItem, item))` —
the first PO line item (in PO order) that matches the invoice line item,
with no bookkeeping of PO line items already used by other invoice
line items. -/
def InvoiceMatcher.findPoMatch (invItem : LineItem) (po : PurchaseOrder)
    (rate : Currency → Currency → ℚ) : Option LineItem :=
  po.lineItems.find? (fun item => InvoiceMatcher.matchesLineItem invItem item rate)

/-- `InvoiceMatcher.calculateMatchScore`: collect a score for every
invoice line item that found a PO match, then
`confidence = scores.reduce((sum, s) => sum + s, 0) / scores.length`
(JavaScript division: NaN when `scores` is empty). -/
def InvoiceMatcher.calculateMatchScore (invoice : Invoice) (po : PurchaseOrder)
    (rate : Currency → Currency → ℚ) : MatchScore :=
  let scores := invoice.lineItems.filterMap (fun invItem =>
    (InvoiceMatcher.findPoMatch invItem po rate).map (fun poItem =>
      InvoiceMatcher.calculateLineItemScore invItem poItem rate))
  { confidence := JsNum.div (scores.foldl JsNum.add (.fin 0)) (.fin (scores.length : ℚ))
    matchedItems := scores.length
    totalItems := invoice.lineItems.length }

/-- Printing of a JavaScript number inside a reason string. -/
def JsNum.str : JsNum → String
  | .fin q => toString q
  | .inf => "Infinity"
  | .negInf => "-Infinity"
  | .nan => "NaN"

/-- Modelled from the spec: `InvoiceMatcher.explainMatch` is called in
`matchInvoice` but its body is absent from the repository.  Per spec
section 4.4 step 6: with no chosen candidate the reasons are
`["No matching purchase orders found"]`; otherwise a human-readable list
with the matched-item count, the confidence percentage, and a
currency-conversion note exactly when the invoice currency differs from
the PO currency. -/
def InvoiceMatcher.explainMatch (invoice : Invoice) :
    Option MatchCandidate → List String
  | none => ["No matching purchase orders found"]
  | some best =>
      let base :=
        ["Matched " ++ toString best.score.matchedItems ++ " of "
            ++ toString best.score.totalItems ++ " line items",
          "Overall confidence: " ++ (JsNum.mul best.score.confidence (.fin 100)).str ++ "%"]
      if invoice.currency = best.purchaseOrder.currency then base
      else base ++ ["Currency conversion applied"]

/-- The candidate-collection loop of `InvoiceMatcher.matchInvoice`: score
each PO and keep it when `score.confidence >= 0.9` (false for NaN). -/
def InvoiceMatcher.matchCandidates (invoice : Invoice)
    (purchaseOrders : List PurchaseOrder)
    (rate : Currency → Currency → ℚ) : List MatchCandidate :=
  purchaseOrders.filterMap (fun po =>
    let score := InvoiceMatcher.calculateMatchScore invoice po rate
    if JsNum.ge score.confidence (.fin (9 / 10)) then
      some { purchaseOrder := po, score := score }
    else none)

/-- `InvoiceMatcher.matchInvoice`: collect candidates, sort them by
confidence descending (stable, as the JavaScript sort), and return the
best match, its confidence (0 when there is none), up to three
alternatives (`slice(1, 4)`), and the explanation. -/
def InvoiceMatcher.matchInvoice (invoice : Invoice)
    (purchaseOrders : List PurchaseOrder)
    (rate : Currency → Currency → ℚ) : MatchResult :=
  let candidates := InvoiceMatcher.matchCandidates invoice purchaseOrders rate
  let sorted := candidates.mergeSort
    (fun a b => JsNum.ge a.score.confidence b.score.confidence)
  { bestMatch := sorted.head?.map (·.purchaseOrder)
    confidence := match sorted.head? with
      | some best => best.score.confidence
      | none => .fin 0
    alternatives := (sorted.drop 1).take 3
    reasons := InvoiceMatcher.explainMatch invoice sorted.head? }

/-! ## Currency converter (`src/business/currency/converter.ts`) -/

/-- The part of the external payload the converter reads:
`data.rates[to]` and `data.date`. -/
structure RatePayload where
  rateVal : ℚ
  dateVal : ℤ
deriving DecidableEq, Repr

/-- `ExchangeRate { from, to, rate, timestamp }`. -/
structure ExchRate where
  src : Currency
  dst : Currency
  rate : ℚ
  timestamp : ℤ
deriving DecidableEq, Repr

/-- A `CacheEntry { rate, expiresAt }` of the converter rate cache. -/
structure CacheEntry where
  rate : ExchRate
  expiresAt : ℤ
deriving DecidableEq, Repr

/-- The `Map<string, CacheEntry>` rate cache, as an association list. -/
abbrev RateCache := List (String × CacheEntry)

/-- `Map.get`. -/
def cacheGet (key : String) : RateCache → Option CacheEntry
  | [] => none
  | (k, v) :: rest => if k = key then some v else cacheGet key rest

/-- `Map.set`: overwrite an existing key in place, else append. -/
def cacheSet (key : String) (v : CacheEntry) : RateCache → RateCache
  | [] => [(key, v)]
  | (k, w) :: rest =>
      if k = key then (key, v) :: rest else (k, w) :: cacheSet key v rest

/-- The string form of a `CurrencyCode`. -/
def Currency.code : Currency → String
  | .USD => "USD"
  | .EUR => "EUR"
  | .GBP => "GBP"
  | .AUD => "AUD"
  | .CAD => "CAD"

/-- The cache key
`` `${from}-${to}-${date?.toISOString() ?? "latest"}` ``. -/
def cacheKeyOf (src dst : Currency) (date : Option String) : String :=
  src.code ++ "-" ++ dst.code ++ "-" ++ date.getD "latest"

/-- The fetch-and-store tail of `getExchangeRate`: when the external
fetch fails (network error, non-ok response, or parse failure) the error
propagates and the cache is not touched; on success the rate is stored
with expiry `now + TTL` and returned.  The fetch outcome is supplied as
a parameter standing for the external rate source. -/
def fetchAndStore (src dst : Currency) (key : String)
    (fetchResult : Except String RatePayload) (now ttl : ℤ)
    (cache : RateCache) : Except String ExchRate × RateCache :=
  match fetchResult with
  | .error e => (.error e, cache)
  | .ok payload =>
      let rate : ExchRate :=
        { src := src, dst := dst, rate := payload.rateVal, timestamp := payload.dateVal }
      (.ok rate, cacheSet key { rate := rate, expiresAt := now + ttl } cache)

/-- `CurrencyConverter.getExchangeRate`: use the cached entry when
`cached && cached.expiresAt > Date.now()`, otherwise fetch. -/
def CurrencyConverter.getExchangeRate (src dst : Currency) (date : Option String)
    (fetchResult : Except String RatePayload) (now ttl : ℤ)
    (cache : RateCache) : Except String ExchRate × RateCache :=
  let key := cacheKeyOf src dst date
  match cacheGet key cache with
  | some cached =>
      if cached.expiresAt > now then (.ok cached.rate, cache)
      else fetchAndStore src dst key fetchResult now ttl cache
  | none => fetchAndStore src dst key fetchResult now ttl cache

/-- `CurrencyConverter.convert`: identity when `from === to` (no cache
access), otherwise fetch the rate and return
`Math.round(amount * rate * 10000) / 10000` in the target currency. -/
def CurrencyConverter.convert (amount : ℚ) (src dst : Currency)
    (date : Option String) (fetchResult : Except String RatePayload)
    (now ttl : ℤ) (cache : RateCache) : Except String Money × RateCache :=
  if src = dst then (.ok { amount := amount, currency := dst }, cache)
  else
    match CurrencyConverter.getExchangeRate src dst date fetchResult now ttl cache with
    | (.error e, cache2) => (.error e, cache2)
    | (.ok rate, cache2) =>
        let converted := amount * rate.rate
        let rounded : ℚ := (jsRound (converted * 10000) : ℚ) / 10000
        (.ok { amount := rounded, currency := dst }, cache2)

/-- A rational has at most 4 fractional digits when scaling by 10000
makes it an integer. -/
def hasAtMost4Frac (q : ℚ) : Prop := (q * 10000).den = 1

instance : DecidablePred hasAtMost4Frac := fun q => by
  unfold hasAtMost4Frac
  infer_instance

/-! ## Helper lemmas and concrete fixtures -/

/-- A context whose two sides carry a numeric `totalAmount` field
(invoice side `a`, purchase-order side `e`) and nothing else. -/
def numCtx (a e : ℚ) : RuleCtx :=
  { invoice := fun f => if f = "totalAmount" then .num a else .undef
    purchaseOrder := fun f => if f = "totalAmount" then .num e else .undef }

/-- A context whose invoice side has no numeric field at all and whose
purchase-order side carries `totalAmount = 100`. -/
def ctxUndef : RuleCtx :=
  { invoice := fun _ => .undef
    purchaseOrder := fun f => if f = "totalAmount" then .num 100 else .undef }

/-- When no rule in the list fails with error severity, the evaluation
loop returns all accumulated results followed by the results of the
rules in order. -/
lemma evalLoop_ok (ctx : RuleCtx) (rules : List Rule) :
    ∀ acc : List RuleResult,
    (∀ r ∈ rules, ¬((r.eval ctx).passed = false ∧ (r.eval ctx).severity = .error)) →
    RuleEngine.evalLoop ctx rules acc = .ok (acc ++ rules.map (fun r => r.eval ctx)) := by
  induction rules with
  | nil => intro acc _; simp [RuleEngine.evalLoop]
  | cons r rs ih =>
      intro acc h
      have hr := h r (by simp)
      have hcond : (!(r.eval ctx).passed && decide ((r.eval ctx).severity = Severity.error)) = false := by
        rcases hp : (r.eval ctx).passed <;> simp_all
      simp only [RuleEngine.evalLoop, hcond, Bool.false_eq_true, if_false]
      rw [ih (acc ++ [r.eval ctx]) (fun x hx => h x (by simp [hx]))]
      simp

/-- The evaluation loop hits the first error-severity failure and throws
its violation, independent of the rules after it. -/
lemma evalLoop_error (ctx : RuleCtx) (bad : Rule) (post : List Rule)
    (hp : (bad.eval ctx).passed = false) (hs : (bad.eval ctx).severity = .error) :
    ∀ (pre : List Rule) (acc : List RuleResult),
    (∀ r ∈ pre, ¬((r.eval ctx).passed = false ∧ (r.eval ctx).severity = .error)) →
    RuleEngine.evalLoop ctx (pre ++ bad :: post) acc =
      .error { message := "Rule violation: " ++ bad.explain
               rule := bad.explain
               result := bad.eval ctx } := by
  intro pre
  induction pre with
  | nil =>
      intro acc _
      have hcond : (!(bad.eval ctx).passed && decide ((bad.eval ctx).severity = Severity.error)) = true := by
        simp [hp, hs]
      simp only [List.nil_append, RuleEngine.evalLoop, hcond, if_true]
  | cons r rs ih =>
      intro acc h
      have hr := h r (by simp)
      have hcond : (!(r.eval ctx).passed && decide ((r.eval ctx).severity = Severity.error)) = false := by
        rcases hq : (r.eval ctx).passed <;> simp_all
      simp only [List.cons_append, RuleEngine.evalLoop, hcond, Bool.false_eq_true, if_false]
      exact ih (acc ++ [r.eval ctx]) (fun x hx => h x (by simp [hx]))

/-- C1 (amended): for a `ToleranceRule` over numeric fields with nonzero
purchase-order value, the rule passes exactly when the relative
difference is at most `tolerance/100`; on failure the severity is
`warning` exactly when the relative difference is at most `0.05` — a
fixed absolute 5% bound, independent of the tolerance — and `error`
otherwise. -/
theorem C1_tolerance_rule_severity (t : ℚ) (field : String) (ctx : RuleCtx) (a e : ℚ)
    (hinv : ctx.invoice field = .num a) (hpo : ctx.purchaseOrder field = .num e)
    (he : e ≠ 0) :
    ((ToleranceRule.evaluate ⟨t, field⟩ ctx).passed = true ↔ |a - e| / e ≤ t / 100)
    ∧ ((ToleranceRule.evaluate ⟨t, field⟩ ctx).passed = false →
        ((ToleranceRule.evaluate ⟨t, field⟩ ctx).severity = .warning ↔ |a - e| / e ≤ 5 / 100)) := by
  unfold ToleranceRule.evaluate
  simp only [hinv, hpo, JsField.toNum, JsNum.sub, JsNum.abs, JsNum.div, if_neg he, JsNum.le]
  by_cases h : |a - e| / e ≤ t / 100
  · simp [h]
  · simp only [h, decide_eq_true_eq, if_neg, decide_eq_false_iff_not, not_false_eq_true, if_false]
    by_cases h5 : |a - e| / e ≤ 5 / 100 <;> simp [h, h5]

/-- C1 (counterexample): with `ToleranceRule(2, "totalAmount")`,
expected 100 and actual 106 the relative difference is 0.06, within 5
percentage points beyond the 2% tolerance, so the claim predicts
severity `warning`; the code yields severity `error` (its warning cutoff
is the absolute value 0.05, not tolerance plus 5 points). -/
theorem C1_counterexample :
    (ToleranceRule.evaluate ⟨2, "totalAmount"⟩ (numCtx 106 100)).passed = false
    ∧ (ToleranceRule.evaluate ⟨2, "totalAmount"⟩ (numCtx 106 100)).severity ≠ .warning
    ∧ (ToleranceRule.evaluate ⟨2, "totalAmount"⟩ (numCtx 106 100)).severity = .error
    ∧ ¬(|(106 : ℚ) - 100| / 100 ≤ 2 / 100)
    ∧ |(106 : ℚ) - 100| / 100 ≤ (2 + 5) / 100 := by
  norm_num [ToleranceRule.evaluate, numCtx, JsField.toNum, JsNum.sub, JsNum.abs,
    JsNum.div, JsNum.le]
  decide

/-- C1 (witness): the amended theorem applied at tolerance 2, expected
100, actual 103. -/
theorem C1_witness :
    (((ToleranceRule.evaluate ⟨2, "totalAmount"⟩ (numCtx 103 100)).passed = true ↔
        |(103 : ℚ) - 100| / 100 ≤ 2 / 100)
     ∧ ((ToleranceRule.evaluate ⟨2, "totalAmount"⟩ (numCtx 103 100)).passed = false →
        ((ToleranceRule.evaluate ⟨2, "totalAmount"⟩ (numCtx 103 100)).severity = .warning ↔
          |(103 : ℚ) - 100| / 100 ≤ 5 / 100))) :=
  C1_tolerance_rule_severity 2 "totalAmount" (numCtx 103 100) 103 100
    (by simp [numCtx]) (by simp [numCtx]) (by norm_num)

/-- C5 (amended): when the named field is non-numeric (absent/undefined)
on either side, the subtraction inside `ToleranceRule.evaluate` yields
NaN, the tolerance comparison is false, and the rule reports
`passed = false` with `severity = error` — not the no-op
`passed = true, severity = info` — so `RuleEngine.evaluate` raises
`BusinessRuleViolationError` for such a rule. -/
theorem C5_nonnumeric_field_error (t : ℚ) (field expl : String) (ctx : RuleCtx)
    (h : ctx.invoice field = .undef ∨ ctx.purchaseOrder field = .undef) :
    (ToleranceRule.evaluate ⟨t, field⟩ ctx).passed = false
    ∧ (ToleranceRule.evaluate ⟨t, field⟩ ctx).severity = .error
    ∧ RuleEngine.evaluate [⟨ToleranceRule.evaluate ⟨t, field⟩, expl⟩] ctx =
        .error { message := "Rule violation: " ++ expl
                 rule := expl
                 result := ToleranceRule.evaluate ⟨t, field⟩ ctx } := by
  have hdiff : JsNum.div
      (JsNum.abs (JsNum.sub (ctx.invoice field).toNum (ctx.purchaseOrder field).toNum))
      (ctx.purchaseOrder field).toNum = JsNum.nan := by
    rcases h with h | h
    · rw [h]
      rcases ctx.purchaseOrder field with q | _ <;>
        simp [JsField.toNum, JsNum.sub, JsNum.abs, JsNum.div]
    · rw [h]
      rcases ctx.invoice field with q | _ <;>
        simp [JsField.toNum, JsNum.sub, JsNum.abs, JsNum.div]
  have hres : ToleranceRule.evaluate ⟨t, field⟩ ctx =
      { passed := false
        message := field ++ " exceeds " ++ toString t ++ "% tolerance"
        severity := .error
        details := some ((ctx.purchaseOrder field).toNum, (ctx.invoice field).toNum, t) } := by
    simp only [ToleranceRule.evaluate]
    rw [hdiff]
    simp [JsNum.le]
  refine ⟨by rw [hres], by rw [hres], ?_⟩
  simp [RuleEngine.evaluate, RuleEngine.evalLoop, hres]

/-- C5 (counterexample): `ToleranceRule(2, "totalAmount")` on a context
whose invoice side has no `totalAmount` field returns
`passed = false, severity = error` — the claim predicts the no-op
`passed = true, severity = info`. -/
theorem C5_counterexample :
    (ToleranceRule.evaluate ⟨2, "totalAmount"⟩ ctxUndef).passed = false
    ∧ (ToleranceRule.evaluate ⟨2, "totalAmount"⟩ ctxUndef).severity = .error
    ∧ (ToleranceRule.evaluate ⟨2, "totalAmount"⟩ ctxUndef).passed ≠ true := by
  norm_num [ToleranceRule.evaluate, ctxUndef, JsField.toNum, JsNum.sub, JsNum.abs,
    JsNum.div, JsNum.le]

/-- C5 (witness): the amended theorem applied to `ToleranceRule(2,
"totalAmount")` on the context with an undefined invoice field. -/
theorem C5_witness :
    (ToleranceRule.evaluate ⟨2, "totalAmount"⟩ ctxUndef).passed = false
    ∧ (ToleranceRule.evaluate ⟨2, "totalAmount"⟩ ctxUndef).severity = .error
    ∧ RuleEngine.evaluate [⟨ToleranceRule.evaluate ⟨2, "totalAmount"⟩, "tolerance check"⟩] ctxUndef =
        .error { message := "Rule violation: " ++ "tolerance check"
                 rule := "tolerance check"
                 result := ToleranceRule.evaluate ⟨2, "totalAmount"⟩ ctxUndef } :=
  C5_nonnumeric_field_error 2 "totalAmount" "tolerance check" ctxUndef (Or.inl (by simp [ctxUndef]))

/-- C8 (confirmed): `RuleEngine.evaluate` walks the registered rules in
registration order; at the first rule whose result has `passed = false`
and `severity = error` it raises the `BusinessRuleViolationError`
carrying that rule's explanation and result, independent of any rules
registered after it; when no rule fails with error severity it returns
`passed = all results passed`, all results in registration order, and as
warnings exactly the failed results of warning severity. -/
theorem C8_rule_engine_fifo_failfast :
    (∀ (ctx : RuleCtx) (pre : List Rule) (bad : Rule) (post : List Rule),
      (∀ r ∈ pre, ¬((r.eval ctx).passed = false ∧ (r.eval ctx).severity = .error)) →
      (bad.eval ctx).passed = false → (bad.eval ctx).severity = .error →
      RuleEngine.evaluate (pre ++ bad :: post) ctx =
        .error { message := "Rule violation: " ++ bad.explain
                 rule := bad.explain
                 result := bad.eval ctx })
    ∧ (∀ (ctx : RuleCtx) (rules : List Rule),
      (∀ r ∈ rules, ¬((r.eval ctx).passed = false ∧ (r.eval ctx).severity = .error)) →
      RuleEngine.evaluate rules ctx =
        .ok { passed := (rules.map (fun r => r.eval ctx)).all (·.passed)
              results := rules.map (fun r => r.eval ctx)
              warnings := (rules.map (fun r => r.eval ctx)).filter
                (fun res => !res.passed && decide (res.severity = Severity.warning)) }) := by
  constructor
  · intro ctx pre bad post hpre hp hs
    unfold RuleEngine.evaluate
    rw [evalLoop_error ctx bad post hp hs pre [] hpre]
  · intro ctx rules h
    unfold RuleEngine.evaluate
    rw [evalLoop_ok ctx rules [] h]
    simp

/-- A rule whose result is always a pass (used as the first registered
rule in the C8 witness). -/
def ruleOkC8 : Rule :=
  { eval := fun _ => { passed := true, message := "ok", severity := .info }
    explain := "first rule" }

/-- A rule that always fails with error severity. -/
def ruleBadC8 : Rule :=
  { eval := fun _ => { passed := false, message := "bad", severity := .error }
    explain := "second rule" }

/-- A spy rule registered after the error-failing rule: the engine never
reaches it. -/
def ruleSpyC8 : Rule :=
  { eval := fun _ => { passed := true, message := "spy", severity := .info }
    explain := "spy rule" }

/-- A rule that always fails with warning severity. -/
def ruleWarnC8 : Rule :=
  { eval := fun _ => { passed := false, message := "warn", severity := .warning }
    explain := "warning rule" }

/-- C8 (witness): the theorem applied to a concrete engine run — a pass,
an error-failing rule and a spy rule yield the violation of the second
rule with the spy unreached; a pass and a warning-failing rule yield an
overall failed result with one warning. -/
theorem C8_witness :
    RuleEngine.evaluate [ruleOkC8, ruleBadC8, ruleSpyC8] (numCtx 100 100) =
      .error { message := "Rule violation: second rule"
               rule := "second rule"
               result := { passed := false, message := "bad", severity := .error } }
    ∧ RuleEngine.evaluate [ruleOkC8, ruleWarnC8] (numCtx 100 100) =
      .ok { passed := false
            results := [{ passed := true, message := "ok", severity := .info },
              { passed := false, message := "warn", severity := .warning }]
            warnings := [{ passed := false, message := "warn", severity := .warning }] } := by
  constructor
  · have h := C8_rule_engine_fifo_failfast.1 (numCtx 100 100) [ruleOkC8] ruleBadC8 [ruleSpyC8]
      (by intro r hr; simp only [List.mem_singleton] at hr; subst hr; simp [ruleOkC8])
      (by simp [ruleBadC8]) (by simp [ruleBadC8])
    simpa [ruleBadC8] using h
  · have h := C8_rule_engine_fifo_failfast.2 (numCtx 100 100) [ruleOkC8, ruleWarnC8]
      (by intro r hr
          simp only [List.mem_cons, List.mem_singleton, List.not_mem_nil, or_false] at hr
          rcases hr with rfl | rfl
          · simp [ruleOkC8]
          · simp [ruleWarnC8])
    simpa [ruleOkC8, ruleWarnC8] using h

/-- A trivial exchange-rate oracle (all fixtures below stay in one
currency, so its value is never used). -/
def unitRate : Currency → Currency → ℚ := fun _ _ => 1

/-- An invoice line item with description "aa". -/
def itemAA : LineItem :=
  { id := "inv-item-1", description := "aa", quantity := 1
    unitPrice := { amount := 5, currency := .USD }
    total := { amount := 5, currency := .USD } }

/-- A purchase-order line item with the unrelated description "xy". -/
def itemXY : LineItem :=
  { id := "po-item-1", description := "xy", quantity := 1
    unitPrice := { amount := 5, currency := .USD }
    total := { amount := 5, currency := .USD } }

/-- A one-line-item invoice. -/
def invSimple : Invoice :=
  { id := "inv-1", lineItems := [itemAA]
    total := { amount := 5, currency := .USD }, currency := .USD }

/-- A purchase order whose only line item matches nothing on `invSimple`. -/
def poNoMatch : PurchaseOrder :=
  { id := "po-1", lineItems := [itemXY]
    total := { amount := 5, currency := .USD }, currency := .USD
    status := "approved" }

/-- "aa" and "xy" differ in both characters, so the edit distance is 2
and the normalized similarity is 0, below the 0.85 threshold: the gate
rejects the pair. -/
lemma matchesAAXY_false : InvoiceMatcher.matchesLineItem itemAA itemXY unitRate = false := by
  have hlev : levDist ("aa".data.map Char.toLower) ("xy".data.map Char.toLower) = 2 := by decide
  have hsim : calculateLevenshtein ("aa".data.map Char.toLower) ("xy".data.map Char.toLower)
      = JsNum.fin 0 := by
    simp only [calculateLevenshtein, hlev]
    norm_num [JsNum.div, JsNum.sub]
  simp only [InvoiceMatcher.matchesLineItem, itemAA, itemXY]
  rw [hsim]
  norm_num [JsNum.lt]

/-- The only PO line item of `poNoMatch` fails the gate, so the pairing
search finds nothing. -/
lemma findAA_none : InvoiceMatcher.findPoMatch itemAA poNoMatch unitRate = none := by
  simp [InvoiceMatcher.findPoMatch, poNoMatch, List.find?_cons, matchesAAXY_false]

/-- When no invoice line item pairs with a PO line item, the score list
is empty and the aggregate confidence is the JavaScript value `0/0`,
that is NaN, with zero matched items. -/
lemma matchScore_of_no_pairs (invoice : Invoice) (po : PurchaseOrder)
    (rate : Currency → Currency → ℚ)
    (h : ∀ it ∈ invoice.lineItems, InvoiceMatcher.findPoMatch it po rate = none) :
    InvoiceMatcher.calculateMatchScore invoice po rate =
      { confidence := JsNum.nan, matchedItems := 0
        totalItems := invoice.lineItems.length } := by
  have hnil : invoice.lineItems.filterMap (fun invItem =>
      (InvoiceMatcher.findPoMatch invItem po rate).map (fun poItem =>
        InvoiceMatcher.calculateLineItemScore invItem poItem rate)) = [] := by
    rw [List.filterMap_eq_nil_iff]
    intro a ha
    rw [h a ha]
    rfl
  simp only [InvoiceMatcher.calculateMatchScore, hnil]
  norm_num [JsNum.div, List.foldl]

/-- C2 (counterexample): on two empty strings the similarity function of
the matcher does not return 1.0 — `1 - 0/0` is NaN in JavaScript. -/
theorem C2_counterexample : calculateLevenshtein [] [] ≠ JsNum.fin 1 := by
  norm_num [calculateLevenshtein, levDist, JsNum.div, JsNum.sub]
  simp

/-- C2 (amended): `calculateLevenshtein` applied to two empty strings
returns NaN (`maxLen` is 0 and `distance / maxLen` is `0/0`), not the
defined value 1.0. -/
theorem C2_levenshtein_empty_nan : calculateLevenshtein [] [] = JsNum.nan := by
  norm_num [calculateLevenshtein, levDist, JsNum.div, JsNum.sub]

/-- C3 (amended): for every invoice and candidate purchase order with
zero matched line-item pairs, the aggregate confidence computed during
`matchInvoice` is NaN (the JavaScript `0/0`), not 0; since `NaN >= 0.9`
is false such a candidate is never admitted to the ranking. -/
theorem C3_zero_pairs_confidence_nan (invoice : Invoice) (po : PurchaseOrder)
    (rate : Currency → Currency → ℚ)
    (h : ∀ it ∈ invoice.lineItems, InvoiceMatcher.findPoMatch it po rate = none) :
    (InvoiceMatcher.calculateMatchScore invoice po rate).confidence = JsNum.nan
    ∧ (InvoiceMatcher.calculateMatchScore invoice po rate).matchedItems = 0
    ∧ JsNum.ge (InvoiceMatcher.calculateMatchScore invoice po rate).confidence
        (.fin (9 / 10)) = false := by
  rw [matchScore_of_no_pairs invoice po rate h]
  exact ⟨rfl, rfl, rfl⟩

/-- C3 (counterexample): a concrete candidate with zero matched pairs
has confidence NaN, which is not the claimed value 0. -/
theorem C3_counterexample :
    (InvoiceMatcher.calculateMatchScore invSimple poNoMatch unitRate).matchedItems = 0
    ∧ (InvoiceMatcher.calculateMatchScore invSimple poNoMatch unitRate).confidence = JsNum.nan
    ∧ (InvoiceMatcher.calculateMatchScore invSimple poNoMatch unitRate).confidence ≠ JsNum.fin 0 := by
  have h : ∀ it ∈ invSimple.lineItems, InvoiceMatcher.findPoMatch it poNoMatch unitRate = none := by
    intro it hit
    simp only [invSimple, List.mem_singleton] at hit
    subst hit
    exact findAA_none
  rw [matchScore_of_no_pairs invSimple poNoMatch unitRate h]
  refine ⟨rfl, rfl, by simp⟩

/-- C3 (witness): the amended theorem applied to the concrete
one-line-item invoice and the unrelated purchase order. -/
theorem C3_witness :
    (InvoiceMatcher.calculateMatchScore invSimple poNoMatch unitRate).confidence = JsNum.nan
    ∧ (InvoiceMatcher.calculateMatchScore invSimple poNoMatch unitRate).matchedItems = 0
    ∧ JsNum.ge (InvoiceMatcher.calculateMatchScore invSimple poNoMatch unitRate).confidence
        (.fin (9 / 10)) = false :=
  C3_zero_pairs_confidence_nan invSimple poNoMatch unitRate (by
    intro it hit
    simp only [invSimple, List.mem_singleton] at hit
    subst hit
    exact findAA_none)

/-- A purchase-order line item with description "aaaa", quantity 100. -/
def itemP4 : LineItem :=
  { id := "po-item-a", description := "aaaa", quantity := 100
    unitPrice := { amount := 50, currency := .USD }
    total := { amount := 5000, currency := .USD } }

/-- An invoice line item identical in content to `itemP4`. -/
def itemI1 : LineItem :=
  { id := "inv-item-a", description := "aaaa", quantity := 100
    unitPrice := { amount := 50, currency := .USD }
    total := { amount := 5000, currency := .USD } }

/-- A second, distinct invoice line item (quantity 101, within the 2%
tolerance of 100) that also matches `itemP4`. -/
def itemI2 : LineItem :=
  { id := "inv-item-b", description := "aaaa", quantity := 101
    unitPrice := { amount := 50, currency := .USD }
    total := { amount := 5050, currency := .USD } }

/-- A two-line-item invoice whose items both match the single PO item. -/
def invDouble : Invoice :=
  { id := "inv-2", lineItems := [itemI1, itemI2]
    total := { amount := 10050, currency := .USD }, currency := .USD }

/-- A purchase order with a single line item. -/
def poSingle : PurchaseOrder :=
  { id := "po-2", lineItems := [itemP4]
    total := { amount := 5000, currency := .USD }, currency := .USD
    status := "approved" }

/-- Identical descriptions have edit distance 0 and similarity 1; with
quantity and price differences within tolerance the gate accepts. -/
lemma matchesI1P4 : InvoiceMatcher.matchesLineItem itemI1 itemP4 unitRate = true := by
  have hlev : levDist ("aaaa".data.map Char.toLower) ("aaaa".data.map Char.toLower) = 0 := by
    decide
  have hsim : calculateLevenshtein ("aaaa".data.map Char.toLower)
      ("aaaa".data.map Char.toLower) = JsNum.fin 1 := by
    simp only [calculateLevenshtein, hlev]
    norm_num [JsNum.div, JsNum.sub]
  simp only [InvoiceMatcher.matchesLineItem, itemI1, itemP4]
  rw [hsim]
  norm_num [JsNum.lt, JsNum.gt, JsNum.sub, JsNum.abs, JsNum.div, convertPrice]

/-- The second invoice item also passes the gate against the same PO
item: quantity 101 versus 100 is a 1% relative difference. -/
lemma matchesI2P4 : InvoiceMatcher.matchesLineItem itemI2 itemP4 unitRate = true := by
  have hlev : levDist ("aaaa".data.map Char.toLower) ("aaaa".data.map Char.toLower) = 0 := by
    decide
  have hsim : calculateLevenshtein ("aaaa".data.map Char.toLower)
      ("aaaa".data.map Char.toLower) = JsNum.fin 1 := by
    simp only [calculateLevenshtein, hlev]
    norm_num [JsNum.div, JsNum.sub]
  simp only [InvoiceMatcher.matchesLineItem, itemI2, itemP4]
  rw [hsim]
  norm_num [JsNum.lt, JsNum.gt, JsNum.sub, JsNum.abs, JsNum.div, convertPrice]

/-- C4 (counterexample): in the evaluation of `poSingle` against
`invDouble`, both (distinct) invoice line items are paired with the same
single PO line item — the code tracks no already-used PO items, so one
PO line item contributes a matched-pair score for two different invoice
line items, and the matched-pair count exceeds the number of PO line
items. -/
theorem C4_counterexample :
    InvoiceMatcher.findPoMatch itemI1 poSingle unitRate = some itemP4
    ∧ InvoiceMatcher.findPoMatch itemI2 poSingle unitRate = some itemP4
    ∧ itemI1 ≠ itemI2
    ∧ (InvoiceMatcher.calculateMatchScore invDouble poSingle unitRate).matchedItems = 2
    ∧ poSingle.lineItems.length = 1 := by
  have h1 : InvoiceMatcher.findPoMatch itemI1 poSingle unitRate = some itemP4 := by
    simp [InvoiceMatcher.findPoMatch, poSingle, List.find?_cons, matchesI1P4]
  have h2 : InvoiceMatcher.findPoMatch itemI2 poSingle unitRate = some itemP4 := by
    simp [InvoiceMatcher.findPoMatch, poSingle, List.find?_cons, matchesI2P4]
  refine ⟨h1, h2, by simp [itemI1, itemI2], ?_, by simp [poSingle]⟩
  simp [InvoiceMatcher.calculateMatchScore, invDouble, h1, h2]

/-- C4 (amended): each invoice line item is paired with at most one PO
line item — the first one, in PO line-item order, for which the gate
holds; PO line items matched by an earlier invoice line item are not
excluded, so one PO line item can be reused across invoice line items.
This theorem proves the first-match property of the pairing. -/
theorem C4_first_match_pairing (it : LineItem) (po : PurchaseOrder)
    (rate : Currency → Currency → ℚ) (pit : LineItem)
    (h : InvoiceMatcher.findPoMatch it po rate = some pit) :
    InvoiceMatcher.matchesLineItem it pit rate = true
    ∧ ∃ l1 l2, po.lineItems = l1 ++ pit :: l2
        ∧ ∀ x ∈ l1, InvoiceMatcher.matchesLineItem it x rate = false := by
  rw [InvoiceMatcher.findPoMatch, List.find?_eq_some] at h
  obtain ⟨hp, l1, l2, heq, hall⟩ := h
  refine ⟨hp, l1, l2, heq, fun x hx => ?_⟩
  have := hall x hx
  simpa using this

/-- C4 (witness): the amended theorem applied to the first invoice line
item of the concrete double-match fixture. -/
theorem C4_witness :
    InvoiceMatcher.matchesLineItem itemI1 itemP4 unitRate = true
    ∧ ∃ l1 l2, poSingle.lineItems = l1 ++ itemP4 :: l2
        ∧ ∀ x ∈ l1, InvoiceMatcher.matchesLineItem itemI1 x unitRate = false :=
  C4_first_match_pairing itemI1 poSingle unitRate itemP4
    (by simp [InvoiceMatcher.findPoMatch, poSingle, List.find?_cons, matchesI1P4])

/-- C6 (amended): the line-item gate returns false whenever the PO-side
reference (quantity, or unit price) is zero and the corresponding
invoice-side value is nonzero — the relative difference is then
`Infinity`, which exceeds the tolerance.  (When both sides are zero the
relative difference is `0/0 = NaN`, every NaN comparison is false, so
the tolerance check is skipped rather than failed; see the
counterexample.) -/
theorem C6_zero_reference_gate (invItem poItem : LineItem)
    (rate : Currency → Currency → ℚ) :
    (poItem.quantity = 0 → invItem.quantity ≠ 0 →
       InvoiceMatcher.matchesLineItem invItem poItem rate = false)
    ∧ (poItem.unitPrice.amount = 0 →
       convertPrice invItem.unitPrice poItem.unitPrice.currency rate ≠ 0 →
       InvoiceMatcher.matchesLineItem invItem poItem rate = false) := by
  constructor
  · intro hq hne
    have hqd : JsNum.div
        (JsNum.abs (JsNum.sub (.fin invItem.quantity) (.fin poItem.quantity)))
        (.fin poItem.quantity) = JsNum.inf := by
      rw [hq]
      simp [JsNum.sub, JsNum.abs, JsNum.div, abs_eq_zero, hne, abs_pos.mpr hne]
    simp only [InvoiceMatcher.matchesLineItem, hqd]
    split
    · rfl
    · simp [JsNum.gt, JsNum.lt]
  · intro hp hc
    have hpd : JsNum.div
        (JsNum.abs (JsNum.sub
          (.fin (convertPrice invItem.unitPrice poItem.unitPrice.currency rate))
          (.fin poItem.unitPrice.amount)))
        (.fin poItem.unitPrice.amount) = JsNum.inf := by
      rw [hp]
      simp [JsNum.sub, JsNum.abs, JsNum.div, abs_eq_zero, hc, abs_pos.mpr hc]
    simp only [InvoiceMatcher.matchesLineItem, hpd]
    split
    · rfl
    · split
      · rfl
      · simp [JsNum.gt, JsNum.lt]

/-- An invoice line item with quantity 0 (the claim quantifies over all
invoice-side values, including zero). -/
def itemZInv : LineItem :=
  { id := "inv-item-z", description := "aa", quantity := 0
    unitPrice := { amount := 5, currency := .USD }
    total := { amount := 0, currency := .USD } }

/-- A PO line item with reference quantity 0. -/
def itemZPo : LineItem :=
  { id := "po-item-z", description := "aa", quantity := 0
    unitPrice := { amount := 5, currency := .USD }
    total := { amount := 0, currency := .USD } }

/-- C6 (counterexample): with PO reference quantity zero and invoice
quantity also zero, the quantity relative difference is `0/0 = NaN`;
`NaN > 0.02` is false, so the gate does not reject and the pair matches
— the claim demands false for all invoice-side values including zero. -/
theorem C6_counterexample :
    itemZPo.quantity = 0
    ∧ InvoiceMatcher.matchesLineItem itemZInv itemZPo unitRate = true := by
  refine ⟨rfl, ?_⟩
  have hlev : levDist ("aa".data.map Char.toLower) ("aa".data.map Char.toLower) = 0 := by
    decide
  have hsim : calculateLevenshtein ("aa".data.map Char.toLower)
      ("aa".data.map Char.toLower) = JsNum.fin 1 := by
    simp only [calculateLevenshtein, hlev]
    norm_num [JsNum.div, JsNum.sub]
  simp only [InvoiceMatcher.matchesLineItem, itemZInv, itemZPo]
  rw [hsim]
  norm_num [JsNum.lt, JsNum.gt, JsNum.sub, JsNum.abs, JsNum.div, convertPrice]

/-- An invoice line item with quantity 1 and price 5. -/
def itemQ1 : LineItem :=
  { id := "inv-item-q", description := "aa", quantity := 1
    unitPrice := { amount := 5, currency := .USD }
    total := { amount := 5, currency := .USD } }

/-- A PO line item with reference quantity 0 and nonzero price. -/
def itemQ0 : LineItem :=
  { id := "po-item-q", description := "aa", quantity := 0
    unitPrice := { amount := 5, currency := .USD }
    total := { amount := 0, currency := .USD } }

/-- A PO line item with reference price 0 and quantity 1. -/
def itemP0 : LineItem :=
  { id := "po-item-p", description := "aa", quantity := 1
    unitPrice := { amount := 0, currency := .USD }
    total := { amount := 0, currency := .USD } }

/-- C6 (witness): the amended theorem applied to a zero PO quantity
against invoice quantity 1, and to a zero PO price against invoice
price 5 (same currency). -/
theorem C6_witness :
    InvoiceMatcher.matchesLineItem itemQ1 itemQ0 unitRate = false
    ∧ InvoiceMatcher.matchesLineItem itemQ1 itemP0 unitRate = false :=
  ⟨(C6_zero_reference_gate itemQ1 itemQ0 unitRate).1 (by simp [itemQ0])
      (by norm_num [itemQ1]),
   (C6_zero_reference_gate itemQ1 itemP0 unitRate).2 (by simp [itemP0])
      (by norm_num [convertPrice, itemQ1, itemP0])⟩

/-- C7 (confirmed, with `explainMatch` modelled from the spec): when no
PO line item of any candidate passes the gate for any invoice line item,
`matchInvoice` returns the ordinary value with `bestMatch = null`,
confidence 0, no alternatives, and the single reason string — not an
error. -/
theorem C7_no_match_result (invoice : Invoice) (pos : List PurchaseOrder)
    (rate : Currency → Currency → ℚ)
    (h : ∀ it ∈ invoice.lineItems, ∀ po ∈ pos, ∀ pit ∈ po.lineItems,
      InvoiceMatcher.matchesLineItem it pit rate = false) :
    InvoiceMatcher.matchInvoice invoice pos rate =
      { bestMatch := none, confidence := .fin 0, alternatives := []
        reasons := ["No matching purchase orders found"] } := by
  have hcand : InvoiceMatcher.matchCandidates invoice pos rate = [] := by
    rw [InvoiceMatcher.matchCandidates, List.filterMap_eq_nil_iff]
    intro po hpo
    have hfind : ∀ it ∈ invoice.lineItems, InvoiceMatcher.findPoMatch it po rate = none := by
      intro it hit
      rw [InvoiceMatcher.findPoMatch, List.find?_eq_none]
      intro pit hpit
      simp [h it hit po hpo pit hpit]
    have hscore := matchScore_of_no_pairs invoice po rate hfind
    simp [hscore, JsNum.ge, JsNum.le]
  simp only [InvoiceMatcher.matchInvoice, hcand, List.mergeSort_nil]
  simp [InvoiceMatcher.explainMatch]

/-- C7 (witness): the theorem applied to the concrete one-item invoice
and the single unrelated candidate. -/
theorem C7_witness :
    InvoiceMatcher.matchInvoice invSimple [poNoMatch] unitRate =
      { bestMatch := none, confidence := .fin 0, alternatives := []
        reasons := ["No matching purchase orders found"] } :=
  C7_no_match_result invSimple [poNoMatch] unitRate (by
    intro it hit po hpo pit hpit
    simp only [invSimple, List.mem_singleton] at hit
    simp only [List.mem_singleton] at hpo
    subst hit
    subst hpo
    simp only [poNoMatch, List.mem_singleton] at hpit
    subst hpit
    exact matchesAAXY_false)

/-- C9 (amended): after a cross-currency conversion the returned amount
is `Math.round(amount * rate * 10000) / 10000`, an integer multiple of
`1/10000`, so it has at most 4 fractional digits; the identity
conversion (`from == to`) returns the input amount unchanged, with
whatever precision it had — it is not re-rounded. -/
theorem C9_convert_precision :
    (∀ (amount : ℚ) (src : Currency) (date : Option String)
        (fetchResult : Except String RatePayload) (now ttl : ℤ) (cache : RateCache),
      CurrencyConverter.convert amount src src date fetchResult now ttl cache =
        (.ok { amount := amount, currency := src }, cache))
    ∧ (∀ (amount : ℚ) (src dst : Currency) (date : Option String)
        (fetchResult : Except String RatePayload) (now ttl : ℤ) (cache : RateCache)
        (m : Money) (cache2 : RateCache),
      src ≠ dst →
      CurrencyConverter.convert amount src dst date fetchResult now ttl cache =
        (.ok m, cache2) →
      hasAtMost4Frac m.amount) := by
  constructor
  · intro amount src date fetchResult now ttl cache
    simp [CurrencyConverter.convert]
  · intro amount src dst date fetchResult now ttl cache m cache2 hne hconv
    simp only [CurrencyConverter.convert, if_neg hne] at hconv
    rcases hget : CurrencyConverter.getExchangeRate src dst date fetchResult now ttl cache
      with ⟨res, c3⟩
    rw [hget] at hconv
    cases res with
    | error e => simp at hconv
    | ok rate =>
        simp only [Prod.mk.injEq, Except.ok.injEq] at hconv
        obtain ⟨hm, _⟩ := hconv
        subst hm
        show ((jsRound (amount * rate.rate * 10000) : ℚ) / 10000 * 10000).den = 1
        have hx : ((jsRound (amount * rate.rate * 10000) : ℚ) / 10000 * 10000) =
            ((jsRound (amount * rate.rate * 10000) : ℚ)) := by
          field_simp
        rw [hx]
        exact Rat.den_intCast _

/-- C9 (counterexample): the identity conversion of the amount
`0.00001` returns it unchanged, and the returned amount has 5
fractional digits — more than the claimed cap of 4. -/
theorem C9_counterexample :
    CurrencyConverter.convert (1 / 100000) .USD .USD none
      (.ok { rateVal := 1, dateVal := 0 }) 0 3600 [] =
      (.ok { amount := 1 / 100000, currency := .USD }, [])
    ∧ ¬ hasAtMost4Frac ((1 : ℚ) / 100000) := by
  constructor
  · simp [CurrencyConverter.convert]
  · show ¬ ((1 / 100000 : ℚ) * 10000).den = 1
    have h : (1 / 100000 : ℚ) * 10000 = 1 / 10 := by norm_num
    rw [h]
    intro hden
    have h2 : (((1 / 10 : ℚ).num : ℚ)) = 1 / 10 := (Rat.den_eq_one_iff _).mp hden
    have h3 : ((1 / 10 : ℚ).num : ℚ) * 10 = 1 := by rw [h2]; norm_num
    have h4 : ((1 / 10 : ℚ).num * 10 : ℤ) = 1 := by exact_mod_cast h3
    omega

/-- C9 (witness): the amended theorem applied to an identity conversion
and to a USD-to-EUR conversion at rate 1.1 of the amount 1, which
rounds to 1.1 with at most 4 fractional digits. -/
theorem C9_witness :
    CurrencyConverter.convert 7 .USD .USD none
      (.ok { rateVal := 1, dateVal := 0 }) 0 3600 [] =
      (.ok { amount := 7, currency := .USD }, [])
    ∧ hasAtMost4Frac ((⟨11 / 10, .EUR⟩ : Money).amount) := by
  constructor
  · exact C9_convert_precision.1 7 .USD none (.ok { rateVal := 1, dateVal := 0 }) 0 3600 []
  · refine C9_convert_precision.2 1 .USD .EUR none
      (.ok { rateVal := 11 / 10, dateVal := 0 }) 0 3600 [] ⟨11 / 10, .EUR⟩
      [(cacheKeyOf .USD .EUR none,
        { rate := { src := .USD, dst := .EUR, rate := 11 / 10, timestamp := 0 }
          expiresAt := 0 + 3600 })]
      (by simp) ?_
    have hfloor : jsRound ((1 : ℚ) * (11 / 10) * 10000) = 11000 := by
      rw [jsRound, Int.floor_eq_iff]
      constructor <;> norm_num
    simp only [CurrencyConverter.convert, CurrencyConverter.getExchangeRate, cacheGet,
      fetchAndStore, hfloor]
    norm_num [cacheSet]
    decide

/-- C10 (confirmed): when the external fetch fails for a cross-currency
conversion (and the cache has no unexpired entry for the key, so the
fetch is actually attempted), `convert` propagates the error and
returns the rate cache exactly as it was — the failing path never
reaches the cache write. -/
theorem C10_fetch_failure_state (amount : ℚ) (src dst : Currency)
    (date : Option String) (msg : String) (now ttl : ℤ) (cache : RateCache)
    (hne : src ≠ dst)
    (hmiss : ∀ c, cacheGet (cacheKeyOf src dst date) cache = some c →
      ¬(c.expiresAt > now)) :
    CurrencyConverter.convert amount src dst date (.error msg) now ttl cache =
      (.error msg, cache) := by
  have hget : CurrencyConverter.getExchangeRate src dst date (.error msg) now ttl cache =
      (.error msg, cache) := by
    simp only [CurrencyConverter.getExchangeRate]
    rcases hc : cacheGet (cacheKeyOf src dst date) cache with _ | c
    · simp [fetchAndStore]
    · have hexp := hmiss c hc
      simp [fetchAndStore, hexp]
  simp only [CurrencyConverter.convert, if_neg hne, hget]

/-- C10 (witness): the theorem applied to a concrete failing fetch on an
empty cache. -/
theorem C10_witness :
    CurrencyConverter.convert 5 .USD .EUR none (.error "network down") 0 3600 [] =
      (.error "network down", []) :=
  C10_fetch_failure_state 5 .USD .EUR none "network down" 0 3600 []
    (by simp) (by intro c hc; simp [cacheGet] at hc)
